import Mathlib

set_option maxHeartbeats 1000000

/-!
Shallow embedding of the WTF interpreter (src/wtf.py) and verification of
the frozen claims about it.

Modelling conventions, stated once:

* Python floats are modelled as rationals (all numbers occurring in the
  claims are exactly representable).
* The four global stacks of the source (_CSTK, _DSTK, _PSTK, _VSTK) become
  fields of an explicit state record.  _DSTK and _PSTK are Lean lists with
  the head as the top of the stack; _CSTK is a Lean list indexed from the
  front exactly like the Python list, with emission appending at the end.
* During compilation _DSTK holds only complete deferred triples (v, r, p)
  with the priority p on top (wtf.py lines 93-116, 232-249); it is modelled
  as a list of such triples.
* The heterogeneous values that wtf.py pushes on _PSTK (sentinel function
  objects, patch addresses, loop-target addresses, loop-variable indices,
  dictionary watermarks, saved code streams, the INCLUDE save area) are
  modelled as a tagged sum, one tag per push site of the source.
* Routines stored in code / dictionary / deferred triples are either real
  runtime primitives (an OpName) or the string marker that open_par
  (wtf.py lines 232-238) stores in the routine slot of its barrier triple.
* Recoverable errors (error_on) and fatal errors (exit_on) abort a
  compilation path: compile-time actions return Option, with none exactly
  when the source would report an error or crash on that path, so that the
  reachable states are those of error-free ("successful") compilations.
  The error counter itself is modelled separately (error_on, mainGate) for
  the claims about error handling.
-/

/-- Names of the runtime primitive routines of wtf.py (lines 159-230,
272, 317-334, 472-495). -/
inductive OpName where
  | PUSH | JP | JPZ | CALL | RET
  | VPUSH | VSTORE | VINCR | VDECR
  | IPUSH | ISTORE
  | ABS | ADD | DIV | MUL | NEG | POW | RAND | ROUND | SUB
  | EQ | GEQ | GT | LEQ | LT | NEQ
  | AND | NOT | OR
  | PRINT | SPUSH | SPOP | STOS | SLEN
  | FOPEN | FCLOSE | FGET | FPUT
  deriving DecidableEq

/-- A "routine" as stored in a code-stream slot, a dictionary entry or a
deferred triple: either a runtime primitive, or the close-parenthesis
marker string that open_par (wtf.py line 237) stores in the routine slot
of a barrier triple. -/
inductive Rout where
  | op (o : OpName)
  | marker (m : String)
  deriving DecidableEq

/-- Runtime values (numbers, strings, the Python None, integer addresses,
user stacks, and the function object that line 493 of wtf.py passes to
int() by mistake). -/
inductive Val where
  | num (q : ℚ)
  | str (s : String)
  | vnone
  | addr (n : ℕ)
  | ustack (l : List Val)
  | pyfun

/-- One slot of the code stream _CSTK: a routine (even positions in a
well-formed stream) or a datum (odd positions). -/
inductive Entry where
  | rout (r : Rout)
  | dat (v : Val)

/-- A deferred triple on _DSTK: value, routine, priority, as pushed by
compile (wtf.py lines 114-116) and open_par (lines 236-238). -/
structure DTrip where
  v : Val
  r : Rout
  p : ℕ

/-- The compile-time sentinel function objects pushed on _PSTK. -/
inductive SentName where
  | IF | FI | THEN | ELSE | WHILE | DO | FOR | BEGIN
  deriving DecidableEq

/-- One _PSTK slot, tagged by the kind of object the source pushes there:
sentinels, patch addresses (odd index of a JPZ/JP argument slot), loop
target addresses, loop-variable indices, dictionary watermarks, saved
code streams, and the three values saved by INCLUDE. -/
inductive PEnt where
  | sent (m : SentName)
  | patch (i : ℕ)
  | target (j : ℕ)
  | varIdx (i : ℕ)
  | dictLen (n : ℕ)
  | code (c : List Entry)
  | save

/-- A dictionary quadruple (wtf.py lines 274-284, 516-573). -/
structure DictEntry where
  name : String
  prio : ℕ
  rout : Rout
  datum : Val

/-- The global compile-time state of wtf.py: the code stream _CSTK, the
deferred stack _DSTK, the parse stack _PSTK, the dictionary _DICT and the
variable stack _VSTK. -/
structure CState where
  cstk : List Entry
  dstk : List DTrip
  pstk : List PEnt
  dict : List DictEntry
  vstk : List Val

/-- The state at interpreter start-up: all stacks empty.  (The built-in
dictionary of wtf.py lines 516-573 only feeds the compiler the (p, r, v)
arguments of compile; those arguments are supplied directly by the Act
type below, so the initial dictionary content is irrelevant here.) -/
def initState : CState :=
  { cstk := [], dstk := [], pstk := [], dict := [], vstk := [] }

/-- Append the pair (routine, datum) to the code stream, as the two
push(_CSTK, _) calls of wtf.py lines 100-101 and 110-111 do. -/
def emit (r : Rout) (v : Val) (s : CState) : CState :=
  { s with cstk := s.cstk ++ [Entry.rout r, Entry.dat v] }

/-- Core of compile_words (wtf.py lines 93-101): pop deferred triples with
priority at least n, emitting each as a (routine, datum) pair; returns the
remaining deferred stack and the extended code stream. -/
def flushA (n : ℕ) : List DTrip → List Entry → List DTrip × List Entry
  | [], c => ([], c)
  | t :: d, c =>
      if n ≤ t.p then flushA n d (c ++ [Entry.rout t.r, Entry.dat t.v])
      else (t :: d, c)

/-- compile_words (wtf.py lines 93-101) acting on the whole state. -/
def compile_words (n : ℕ) (s : CState) : CState :=
  { s with dstk := (flushA n s.dstk s.cstk).1, cstk := (flushA n s.dstk s.cstk).2 }

/-- compile (wtf.py lines 103-116) for a non-immediate priority p ≠ 0:
priority 255 emits the pair directly, any other priority first flushes
the deferred triples of priority ≥ p and then defers (v, r, p). -/
def compileW (p : ℕ) (r : Rout) (v : Val) (s : CState) : CState :=
  if p = 255 then emit r v s
  else
    let s1 := compile_words p s
    { s1 with dstk := ⟨v, r, p⟩ :: s1.dstk }

/-- The placeholder 1e20 that THEN / ELSE / DO write into a jump-argument
slot before it is patched (wtf.py lines 379, 392, 420). -/
def placeholder : Val := Val.num ((10 : ℚ) ^ 20)

/-- insert_word (wtf.py lines 274-284): flush everything of priority ≥ 1,
then append the quadruple to the dictionary.  (The word itself is scanned
from the source text; here it is a parameter.) -/
def insert_word (w : String) (p : ℕ) (r : Rout) (v : Val) (s : CState) : CState :=
  let s1 := compile_words 1 s
  { s1 with dict := s1.dict ++ [⟨w, p, r, v⟩] }

/-- Loop of close_par (wtf.py lines 239-249): pop deferred triples,
emitting each, until the triple whose routine slot equals the marker m is
found and consumed; none models the recoverable "Unmatched parenthesis"
error raised when the stack is exhausted. -/
def closeAux (m : String) : List DTrip → List Entry → Option (List DTrip × List Entry)
  | [], _ => none
  | t :: d, c =>
      if t.r = Rout.marker m then some (d, c)
      else closeAux m d (c ++ [Entry.rout t.r, Entry.dat t.v])

/-- Patch loop of FI (wtf.py lines 406-407): pop parse-stack entries,
writing the current code length into each recorded patch slot, until the
FI sentinel is consumed.  none models the crash / underflow that wtf.py
would hit on a malformed parse stack (only reachable after a recoverable
error has already been reported). -/
def fiLoop : List PEnt → List Entry → Option (List PEnt × List Entry)
  | [], _ => none
  | PEnt.sent SentName.FI :: l, c => some (l, c)
  | PEnt.patch i :: l, c => fiLoop l (c.set i (Entry.dat (Val.addr c.length)))
  | _, _ => none

/-- One compile-time event, at the interface of compile(p, r, v)
(wtf.py line 134): either a dictionary/number word handed to compile with
its priority, routine and datum, or one of the immediate (priority-0)
words of the dictionary, or the end-of-file flush of compile_file
(wtf.py line 140).  Words whose action scans further source text
(definitions, FOR variables, string constants) carry the scanned data as
parameters. -/
inductive Act where
  | word (p : ℕ) (r : OpName) (v : Val)
  | openPar (m : String)
  | closePar (m : String)
  | closeBra (m : String)
  | newline
  | eof
  | ifW | thenW | elseW | elifW | fiW
  | whileW | doW | odW
  | forW (vi : ℕ) | toW | nextW
  | beginW (p : ℕ) (w : String) | endW
  | strconst (t : String)
  | defW (w : String)
  | stackW (w : String)
  | includeStart | includeEnd

/-- IF (wtf.py lines 369-373). -/
def act_if (s : CState) : CState :=
  let s1 := compile_words 1 s
  { s1 with pstk := PEnt.sent SentName.IF :: PEnt.sent SentName.FI :: s1.pstk }

/-- THEN (wtf.py lines 374-382): pop and check the IF sentinel, flush at
barrier 1, emit JPZ with a placeholder, record the placeholder slot. -/
def act_then (s : CState) : Option CState :=
  match s.pstk with
  | PEnt.sent SentName.IF :: rest =>
      let s1 := compile_words 1 { s with pstk := rest }
      let s2 := emit (Rout.op OpName.JPZ) placeholder s1
      some { s2 with pstk := (PEnt.sent SentName.THEN ::
        PEnt.patch (s2.cstk.length - 1) :: s2.pstk) }
  | _ => none

/-- Second half of ELSE (wtf.py lines 393-398), applied to the state s2
reached after the JP pair was emitted: pop the previous patch slot i,
record the new slot j = len - 1, write j + 1 into slot i. -/
def act_else2 (s2 : CState) : Option CState :=
  match s2.pstk with
  | PEnt.patch i :: rest2 =>
      some { s2 with
        pstk := PEnt.sent SentName.ELSE ::
          PEnt.patch (s2.cstk.length - 1) :: rest2,
        cstk := s2.cstk.set i (Entry.dat (Val.addr (s2.cstk.length - 1 + 1))) }
  | _ => none

/-- ELSE (wtf.py lines 387-398): pop and check the THEN sentinel, flush,
emit JP with a placeholder, then patch and re-record (act_else2). -/
def act_else (s : CState) : Option CState :=
  match s.pstk with
  | PEnt.sent SentName.THEN :: rest =>
      act_else2 (emit (Rout.op OpName.JP) placeholder
        (compile_words 1 { s with pstk := rest }))
  | _ => none

/-- Tail of ELIF (wtf.py lines 385-386): pop one parse-stack entry (the
ELSE sentinel) and push an IF sentinel so that another THEN can chain. -/
def act_elif2 (s1 : CState) : Option CState :=
  match s1.pstk with
  | _ :: rest => some { s1 with pstk := PEnt.sent SentName.IF :: rest }
  | [] => none

/-- ELIF (wtf.py lines 383-386): ELSE, then act_elif2. -/
def act_elif (s : CState) : Option CState :=
  match act_else s with
  | some s1 => act_elif2 s1
  | none => none

/-- Patch phase of FI (wtf.py lines 405-407) on the flushed state s1. -/
def act_fi2 (s1 : CState) : Option CState :=
  (fiLoop s1.pstk s1.cstk).map fun pc => { s1 with pstk := pc.1, cstk := pc.2 }

/-- FI (wtf.py lines 399-407): pop and check a THEN or ELSE sentinel,
flush, then patch every recorded slot up to the FI sentinel. -/
def act_fi (s : CState) : Option CState :=
  match s.pstk with
  | PEnt.sent m :: rest =>
      if m = SentName.THEN ∨ m = SentName.ELSE then
        act_fi2 (compile_words 1 { s with pstk := rest })
      else none
  | _ => none

/-- WHILE (wtf.py lines 409-413). -/
def act_while (s : CState) : CState :=
  let s1 := compile_words 1 s
  { s1 with pstk := PEnt.sent SentName.WHILE :: PEnt.target s1.cstk.length :: s1.pstk }

/-- DO (wtf.py lines 414-423): pop and check a WHILE or FOR sentinel,
flush at barrier 1, emit JPZ with a placeholder, record the slot. -/
def act_do (s : CState) : Option CState :=
  match s.pstk with
  | PEnt.sent m :: rest =>
      if m = SentName.WHILE ∨ m = SentName.FOR then
        let s1 := compile_words 1 { s with pstk := rest }
        let s2 := emit (Rout.op OpName.JPZ) placeholder s1
        some { s2 with pstk := (PEnt.sent SentName.DO ::
          PEnt.patch (s2.cstk.length - 1) :: s2.pstk) }
      else none
  | _ => none

/-- OD (wtf.py lines 424-436): pop the DO sentinel, the placeholder slot b
and the loop target a, flush at barrier 5, emit JP a, patch slot b. -/
def act_od (s : CState) : Option CState :=
  match s.pstk with
  | PEnt.sent SentName.DO :: PEnt.patch b :: PEnt.target a :: rest =>
      let s1 := compile_words 5 { s with pstk := rest }
      let s2 := emit (Rout.op OpName.JP) (Val.addr a) s1
      some { s2 with cstk := s2.cstk.set b (Entry.dat (Val.addr s2.cstk.length)) }
  | _ => none

/-- FOR (wtf.py lines 438-441) on its success path: compile_assignment
compiles the deferred VSTORE of the loop variable (priority 50, wtf.py
line 310) and the variable index is recorded on the parse stack. -/
def act_for (vi : ℕ) (s : CState) : CState :=
  let s1 := compileW 50 (Rout.op OpName.VSTORE) (Val.addr vi) s
  { s1 with pstk := PEnt.sent SentName.FOR :: PEnt.varIdx vi :: s1.pstk }

/-- Final pushes of TO (wtf.py lines 451-453) on the state s3 reached
after the loop condition was compiled: push the condition address j, the
variable index i and a FOR sentinel. -/
def act_to3 (j i : ℕ) (s3 : CState) : CState :=
  { s3 with pstk := (PEnt.sent SentName.FOR ::
      PEnt.varIdx i :: PEnt.target j :: s3.pstk) }

/-- Middle of TO (wtf.py lines 446-453) on the flushed state s1, whose
code length is the condition address j: pop the FOR sentinel and the
variable index, emit VPUSH i, defer LT at priority 50, push back. -/
def act_to2 (s1 : CState) : Option CState :=
  match s1.pstk with
  | PEnt.sent SentName.FOR :: PEnt.varIdx i :: rest =>
      some (act_to3 s1.cstk.length i (compileW 50 (Rout.op OpName.LT) Val.vnone
        (emit (Rout.op OpName.VPUSH) (Val.addr i) { s1 with pstk := rest })))
  | _ => none

/-- TO (wtf.py lines 442-453): flush at barrier 1, then act_to2. -/
def act_to (s : CState) : Option CState :=
  act_to2 (compile_words 1 s)

/-- NEXT (wtf.py lines 454-470): pop the DO sentinel, the placeholder
slot b, the variable index i and the condition address j; emit VINCR i
and JP j (both priority 255), patch slot b.  NEXT performs no flush. -/
def act_next (s : CState) : Option CState :=
  match s.pstk with
  | PEnt.sent SentName.DO :: PEnt.patch b :: PEnt.varIdx i :: PEnt.target j :: rest =>
      let s1 := emit (Rout.op OpName.VINCR) (Val.addr i) { s with pstk := rest }
      let s2 := emit (Rout.op OpName.JP) (Val.addr j) s1
      some { s2 with cstk := s2.cstk.set b (Entry.dat (Val.addr s2.cstk.length)) }
  | _ => none

/-- BEGIN (wtf.py lines 336-352): save the current code stream on the
parse stack, start a fresh one, insert the new word (whose datum in the
source is a reference to the fresh stream; references are not modelled,
the datum is irrelevant to the claims), record the dictionary watermark
and the BEGIN sentinel.  Note that insert_word's compile_words(1) runs
after the stream was swapped, so pending triples flush into the fresh
stream, exactly as in the source. -/
def act_begin (p : ℕ) (w : String) (s : CState) : CState :=
  let s1 := { s with pstk := PEnt.code s.cstk :: s.pstk, cstk := [] }
  let s2 := insert_word w p (Rout.op OpName.CALL) Val.vnone s1
  { s2 with pstk := PEnt.sent SentName.BEGIN :: PEnt.dictLen s2.dict.length :: s2.pstk }

/-- Second half of END (wtf.py lines 356-367) on the flushed state s1:
pop and check the BEGIN sentinel, emit RET 0 into the block stream (which
is then discarded: it is aliased by the dictionary entry in the source
and does not matter to the claims), truncate the dictionary to the
recorded watermark, restore the saved enclosing stream. -/
def act_end2 (s1 : CState) : Option CState :=
  match s1.pstk with
  | PEnt.sent SentName.BEGIN :: PEnt.dictLen d :: PEnt.code c :: rest =>
      some { emit (Rout.op OpName.RET) (Val.addr 0) s1 with
             pstk := rest, dict := s1.dict.take d, cstk := c }
  | _ => none

/-- END (wtf.py lines 353-367): flush everything, then act_end2. -/
def act_end (s : CState) : Option CState :=
  act_end2 (compile_words 0 s)

/-- DEF (wtf.py lines 286-296), with the presence of the "=" token as a
parameter: allocate a variable slot, insert the word (priority 255,
VPUSH of the slot index), report "'=' expected" when eqNext is false, and
in either case compile the deferred VSTORE assignment at priority 50.
Returns the new state together with the number of recoverable errors
reported (the source's error_on does not roll anything back). -/
def DEF_run (w : String) (eqNext : Bool) (s : CState) : CState × ℕ :=
  let i := s.vstk.length
  let s1 := { s with vstk := s.vstk ++ [Val.num 0] }
  let s2 := insert_word w 255 (Rout.op OpName.VPUSH) (Val.addr i) s1
  (compileW 50 (Rout.op OpName.VSTORE) (Val.addr i) s2, if eqNext then 0 else 1)

/-- STACK (wtf.py lines 313-316): allocate an empty user stack and insert
the word. -/
def act_stack (w : String) (s : CState) : CState :=
  let i := s.vstk.length
  let s1 := { s with vstk := s.vstk ++ [Val.ustack []] }
  insert_word w 255 (Rout.op OpName.VPUSH) (Val.addr i) s1

/-- The effect of one compile-time event on the state.  none marks the
paths on which wtf.py reports a recoverable error or dies fatally, so
chains of some-steps are exactly the error-free compilations. -/
def applyAct : Act → CState → Option CState
  | Act.word p r v, s => if p = 0 then none else some (compileW p (Rout.op r) v s)
  | Act.openPar m, s =>
      some { s with dstk := ⟨Val.vnone, Rout.marker m, 0⟩ :: s.dstk }
  | Act.closePar m, s =>
      (closeAux m s.dstk s.cstk).map fun dc => { s with dstk := dc.1, cstk := dc.2 }
  | Act.closeBra m, s =>
      (closeAux m s.dstk s.cstk).map fun dc =>
        emit (Rout.op OpName.IPUSH) Val.vnone { s with dstk := dc.1, cstk := dc.2 }
  | Act.newline, s => some (compile_words 0 s)
  | Act.eof, s => some (compile_words 0 s)
  | Act.ifW, s => some (act_if s)
  | Act.thenW, s => act_then s
  | Act.elseW, s => act_else s
  | Act.elifW, s => act_elif s
  | Act.fiW, s => act_fi s
  | Act.whileW, s => some (act_while s)
  | Act.doW, s => act_do s
  | Act.odW, s => act_od s
  | Act.forW vi, s => some (act_for vi s)
  | Act.toW, s => act_to s
  | Act.nextW, s => act_next s
  | Act.beginW p w, s => some (act_begin p w s)
  | Act.endW, s => act_end s
  | Act.strconst t, s => some (compileW 255 (Rout.op OpName.PUSH) (Val.str t) s)
  | Act.defW w, s => some (DEF_run w true s).1
  | Act.stackW w, s => some (act_stack w s)
  | Act.includeStart, s =>
      some { s with pstk := PEnt.save :: PEnt.save :: PEnt.save :: s.pstk }
  | Act.includeEnd, s =>
      match s.pstk with
      | PEnt.save :: PEnt.save :: PEnt.save :: rest => some { s with pstk := rest }
      | _ => none

/-- The compile-time states reachable by an error-free compilation. -/
inductive Reach : CState → Prop
  | init : Reach initState
  | step {s t : CState} (a : Act) : Reach s → applyAct a s = some t → Reach t

/-- Run a list of compile-time events from a state. -/
def runActs : List Act → CState → Option CState
  | [], s => some s
  | a :: l, s => (applyAct a s).bind (runActs l)

/-- Well-shaped code stream: a sequence of (routine, datum) pairs, i.e.
even length with a routine slot at every even index. -/
def codeOkB : List Entry → Bool
  | [] => true
  | Entry.rout _ :: _ :: c => codeOkB c
  | _ => false

/-- The claim of spec section 8 ("every even-index entry is an opcode"):
pairs whose even slot is a genuine primitive routine, not merely any
routine slot (markers fail this). -/
def allEvenOps : List Entry → Bool
  | [] => true
  | Entry.rout (Rout.op _) :: _ :: c => allEvenOps c
  | _ => false

/-- Per-entry invariant of the parse stack: recorded patch slots are odd
(they point at the datum slot of a just-emitted pair) and saved code
streams are well-shaped. -/
def pentOk : PEnt → Bool
  | PEnt.patch i => i % 2 == 1
  | PEnt.code c => codeOkB c
  | _ => true

/-- The compile-time invariant: the code stream under construction is
well-shaped and every parse-stack entry is acceptable. -/
def Good (s : CState) : Prop :=
  codeOkB s.cstk = true ∧ s.pstk.all pentOk = true

/-- Python truth test against 0 as used by AND / OR / NOT / JPZ
(wtf.py lines 164-167, 228-230): a number is compared numerically, any
non-numeric value is different from 0. -/
def neZeroVal : Val → Bool
  | Val.num q => decide (q ≠ 0)
  | _ => true

/-- AND (wtf.py line 228): PUSH(float(POP() != 0 and POP() != 0)).
Python's "and" short-circuits: when the first popped value equals 0 the
second POP() never runs.  none models the fatal stack underflow. -/
def AND (d : List Val) : Option (List Val) :=
  match d with
  | b :: rest =>
      if neZeroVal b then
        match rest with
        | a :: rest2 => some (Val.num (if neZeroVal a then 1 else 0) :: rest2)
        | [] => none
      else some (Val.num 0 :: rest)
  | [] => none

/-- OR (wtf.py line 230): PUSH(float(POP() != 0 or POP() != 0)).
Python's "or" short-circuits: when the first popped value is non-zero the
second POP() never runs. -/
def OR (d : List Val) : Option (List Val) :=
  match d with
  | b :: rest =>
      if neZeroVal b then some (Val.num 1 :: rest)
      else
        match rest with
        | a :: rest2 => some (Val.num (if neZeroVal a then 1 else 0) :: rest2)
        | [] => none
  | [] => none

/-- Python's int() on a float: truncation toward zero. -/
def pyInt (q : ℚ) : ℤ := if 0 ≤ q then ⌊q⌋ else ⌈q⌉

/-- The non-negative list position that Python indexing s[i] reads for an
in-range index i (negative i counts from the tail). -/
def pyNatIdx (s : List Val) (q : ℚ) : ℕ :=
  (if 0 ≤ pyInt q then pyInt q else pyInt q + (s.length : ℤ)).toNat

/-- Python list indexing s[i] as performed by wtf.py line 195 after the
range check: non-negative indices from the head, negative ones from the
tail. -/
def pyIndex (s : List Val) (i : ℤ) : Val :=
  if 0 ≤ i then s.getD i.toNat Val.vnone
  else s.getD (s.length - (-i).toNat) Val.vnone

/-- IPUSH (wtf.py lines 188-195): pop the index i (converted by int()),
pop the stack s, die fatally ("Index out of range") when
i < -len(s) or i >= len(s), otherwise push s[i].  none covers both the
fatal branch and the type errors Python would raise on non-number /
non-stack operands (int() applied to a numeric string is not modelled). -/
def IPUSH (d : List Val) : Option (List Val) :=
  match d with
  | Val.num qi :: Val.ustack s :: rest =>
      if pyInt qi < -(s.length : ℤ) ∨ (s.length : ℤ) ≤ pyInt qi then none
      else some (pyIndex s (pyInt qi) :: rest)
  | _ => none

/-- Outcome of FPUT. -/
inductive IOOut where
  | wrote (c : Char)
  | ioFatalWrite
  deriving DecidableEq

/-- Python's int() restricted to the values it can convert without a
TypeError in wtf.py line 493 (numeric strings are not modelled). -/
def pyIntOfVal : Val → Option ℤ
  | Val.num q => some (pyInt q)
  | _ => none

/-- FPUT (wtf.py lines 490-495).  The source reads
f.write(chr(int(POP))): after popping the handle f it applies int() to
the function object POP itself, not to POP(); the TypeError this raises
is caught by the bare except and reported as the fatal
"I/O error (writing a file)".  The code below mirrors that expression:
the argument of int() is Val.pyfun, the function object. -/
def FPUT_run (d : List Val) : IOOut × List Val :=
  match d with
  | _f :: rest =>
      match pyIntOfVal Val.pyfun with
      | some n => (IOOut.wrote (Char.ofNat n.toNat), rest)
      | none => (IOOut.ioFatalWrite, rest)
  | [] => (IOOut.ioFatalWrite, [])

/-- Result of one error_on call (wtf.py lines 11-20): whether the message
was printed, the new value of _ERRNO, and whether the process aborted
("That makes 100 errors: I give up!", exit(-1)).  The message is printed
before the counter is incremented and tested against > 100. -/
structure ErrResult where
  reported : Bool
  errno : ℕ
  aborted : Bool
  deriving DecidableEq

/-- error_on (wtf.py lines 11-20). -/
def error_on (cond : Bool) (errno : ℕ) : ErrResult :=
  if cond then { reported := true, errno := errno + 1, aborted := 100 < errno + 1 }
  else { reported := false, errno := errno, aborted := false }

/-- The tail of the main program (wtf.py lines 610-613): given the error
counter after compile_file and the lengths of _DSTK and _PSTK, report the
two end-of-compilation recoverable errors and decide whether execute()
is invoked.  Returns (execute invoked?, final error counter).  In the
source, execute() is called inside the "if _ERRNO == 0" block after the
two error_on calls, which do not return early. -/
def mainGate (e dlen plen : ℕ) : Bool × ℕ :=
  if e = 0 then
    let r1 := error_on (decide (0 < dlen)) e
    let r2 := error_on (decide (0 < plen)) r1.errno
    (!r1.aborted && !r2.aborted, r2.errno)
  else (false, e)

/-- Deterministic pseudo-random generator threaded through execution.  It
stands in for Python's random module: random.seed(0) (wtf.py line 7)
fixes the initial state and random.random() (line 216) is a pure function
of the state.  The exact update function (a linear congruential step
here, a Mersenne twister in CPython) is immaterial to the claims, which
only need determinism and the fixed seed. -/
def rngNext (st : ℕ) : ℚ × ℕ :=
  let st2 := (1103515245 * st + 12345) % 4294967296
  ((st2 : ℚ) / 4294967296, st2)

mutual

/-- Python equality between runtime values as used by EQ / NEQ
(wtf.py lines 221, 226): values of different shapes compare unequal.
(Python's numeric cross-type equality int == float does not arise between
the num and addr variants on the data stack.) -/
def valEq : Val → Val → Bool
  | Val.num a, Val.num b => a == b
  | Val.str a, Val.str b => a == b
  | Val.vnone, Val.vnone => true
  | Val.addr a, Val.addr b => a == b
  | Val.ustack a, Val.ustack b => valListEq a b
  | Val.pyfun, Val.pyfun => true
  | _, _ => false

/-- Elementwise Python equality of user stacks. -/
def valListEq : List Val → List Val → Bool
  | [], [] => true
  | a :: l, b :: m => valEq a b && valListEq l m
  | _, _ => false

end

/-- The Python test POP() == 0 of JPZ and NOT (wtf.py lines 166, 229):
only the number 0 equals 0. -/
def isZeroVal : Val → Bool
  | Val.num q => q == 0
  | _ => false

/-- The state of the executing virtual machine (wtf.py lines 144-154):
the code stream, the instruction pointer _IP, the data and variable
stacks, the pseudo-random generator state, and the trace of values
printed by PRINT. -/
structure VMState where
  code : List Entry
  ip : ℕ
  dstk : List Val
  vstk : List Val
  rng : ℕ
  out : List Val

/-- The VM state in which execute() (wtf.py line 613) starts on a given
code stream: _IP = 0, and the generator state fixed by random.seed(0) at
interpreter start-up (wtf.py line 7).  The data and variable stack
contents at that point depend only on the compiled source as well; they
are parameters of the claims that need them and empty here. -/
def initVM (c : List Entry) : VMState :=
  { code := c, ip := 0, dstk := [], vstk := [], rng := 0, out := [] }

/-- Push a number obtained from a Bool, as float(...) does on the result
of a Python comparison. -/
def boolQ (b : Bool) : ℚ := if b then 1 else 0

/-- Effect of one primitive routine on the VM state (wtf.py lines
159-230, 272): the routine receives its datum v with _IP already
advanced past the pair.  none models a fatal error (stack underflow,
Python type error, division by zero, jump to a non-address datum) or a
routine whose effect is outside this model (file handles, user-stack
mutation through references, CALL / RET code-stream switching); none of
the unmodelled routines introduces any nondeterminism in the source. -/
def execOp (o : OpName) (v : Val) (s : VMState) : Option VMState :=
  match o with
  | OpName.PUSH => some { s with dstk := v :: s.dstk }
  | OpName.JP =>
      match v with
      | Val.addr a => some { s with ip := a }
      | _ => none
  | OpName.JPZ =>
      match v, s.dstk with
      | Val.addr a, b :: rest =>
          some { s with dstk := rest, ip := if isZeroVal b then a else s.ip }
      | _, _ => none
  | OpName.VPUSH =>
      match v with
      | Val.addr i =>
          match s.vstk.get? i with
          | some x => some { s with dstk := x :: s.dstk }
          | none => none
      | _ => none
  | OpName.VSTORE =>
      match v, s.dstk with
      | Val.addr i, e :: rest =>
          if i < s.vstk.length then
            some { s with dstk := rest, vstk := s.vstk.set i e }
          else none
      | _, _ => none
  | OpName.VINCR =>
      match v with
      | Val.addr i =>
          match s.vstk.get? i with
          | some (Val.num q) => some { s with vstk := s.vstk.set i (Val.num (q + 1)) }
          | _ => none
      | _ => none
  | OpName.VDECR =>
      match v with
      | Val.addr i =>
          match s.vstk.get? i with
          | some (Val.num q) => some { s with vstk := s.vstk.set i (Val.num (q - 1)) }
          | _ => none
      | _ => none
  | OpName.IPUSH => (IPUSH s.dstk).map fun d => { s with dstk := d }
  | OpName.ADD =>
      match s.dstk with
      | Val.num b :: Val.num a :: rest => some { s with dstk := Val.num (b + a) :: rest }
      | Val.str b :: Val.str a :: rest => some { s with dstk := Val.str (b ++ a) :: rest }
      | _ => none
  | OpName.SUB =>
      match s.dstk with
      | Val.num b :: Val.num a :: rest => some { s with dstk := Val.num (-b + a) :: rest }
      | _ => none
  | OpName.MUL =>
      match s.dstk with
      | Val.num b :: Val.num a :: rest => some { s with dstk := Val.num (b * a) :: rest }
      | _ => none
  | OpName.DIV =>
      match s.dstk with
      | Val.num b :: Val.num a :: rest =>
          if b = 0 then none else some { s with dstk := Val.num (1 / b * a) :: rest }
      | _ => none
  | OpName.NEG =>
      match s.dstk with
      | Val.num b :: rest => some { s with dstk := Val.num (-b) :: rest }
      | _ => none
  | OpName.ABS =>
      match s.dstk with
      | Val.num b :: rest => some { s with dstk := Val.num |b| :: rest }
      | _ => none
  | OpName.EQ =>
      match s.dstk with
      | b :: a :: rest => some { s with dstk := Val.num (boolQ (valEq b a)) :: rest }
      | _ => none
  | OpName.NEQ =>
      match s.dstk with
      | b :: a :: rest => some { s with dstk := Val.num (boolQ (!valEq b a)) :: rest }
      | _ => none
  | OpName.LT =>
      match s.dstk with
      | Val.num b :: Val.num a :: rest =>
          some { s with dstk := Val.num (boolQ (decide (b > a))) :: rest }
      | _ => none
  | OpName.GT =>
      match s.dstk with
      | Val.num b :: Val.num a :: rest =>
          some { s with dstk := Val.num (boolQ (decide (b < a))) :: rest }
      | _ => none
  | OpName.LEQ =>
      match s.dstk with
      | Val.num b :: Val.num a :: rest =>
          some { s with dstk := Val.num (boolQ (decide (b ≥ a))) :: rest }
      | _ => none
  | OpName.GEQ =>
      match s.dstk with
      | Val.num b :: Val.num a :: rest =>
          some { s with dstk := Val.num (boolQ (decide (b ≤ a))) :: rest }
      | _ => none
  | OpName.AND => (AND s.dstk).map fun d => { s with dstk := d }
  | OpName.OR => (OR s.dstk).map fun d => { s with dstk := d }
  | OpName.NOT =>
      match s.dstk with
      | b :: rest => some { s with dstk := Val.num (boolQ (isZeroVal b)) :: rest }
      | _ => none
  | OpName.RAND =>
      some { s with dstk := Val.num (rngNext s.rng).1 :: s.dstk, rng := (rngNext s.rng).2 }
  | OpName.PRINT =>
      match s.dstk with
      | b :: rest => some { s with dstk := rest, out := s.out ++ [b] }
      | _ => none
  | _ => none

/-- One iteration of the execute() loop (wtf.py lines 146-154): while
_IP < len(_CSTK), advance _IP by 2 and invoke the routine at the old _IP
on the datum next to it.  No step is possible once the instruction
pointer has reached the end (the loop exits), nor on a malformed fetch
(Python would crash calling a non-routine). -/
def vmStep (s : VMState) : Option VMState :=
  if s.ip < s.code.length then
    match s.code.get? s.ip, s.code.get? (s.ip + 1) with
    | some (Entry.rout (Rout.op o)), some (Entry.dat v) =>
        execOp o v { s with ip := s.ip + 2 }
    | _, _ => none
  else none

/-- Run the VM for at most n steps (stopping at the loop exit). -/
def vmExec : ℕ → VMState → VMState
  | 0, s => s
  | n + 1, s =>
      match vmStep s with
      | some t => vmExec n t
      | none => s

/-- n-step execution relation of the VM loop; used to compare two runs of
the interpreter on the same compiled program. -/
inductive VRun : ℕ → VMState → VMState → Prop
  | zero (s : VMState) : VRun 0 s s
  | succ {n : ℕ} {s t u : VMState} :
      VRun n s t → vmStep t = some u → VRun (n + 1) s u

/-- The compile-time events of the source text "10 - 3 - 2": the numbers
compile as PUSH literals at priority 255 (wtf.py line 137) and "-" is the
dictionary entry ("-", 100, SUB, None) (wtf.py line 523); compile_file
ends with compile_words(0) (wtf.py line 140). -/
def c6acts : List Act :=
  [ Act.word 255 OpName.PUSH (Val.num 10),
    Act.word 100 OpName.SUB Val.vnone,
    Act.word 255 OpName.PUSH (Val.num 3),
    Act.word 100 OpName.SUB Val.vnone,
    Act.word 255 OpName.PUSH (Val.num 2),
    Act.eof ]

/-- Extract the rational from a number value. -/
def numOf : Val → Option ℚ
  | Val.num q => some q
  | _ => none

/-- A deferred stack holding only the barrier triple of an unmatched
open parenthesis (open_par on "(" pushes (None, ")", 0)). -/
def c4cex : CState :=
  { initState with dstk := [⟨Val.vnone, Rout.marker ")", 0⟩] }

/-- Concrete states exercising each statement-boundary word. -/
def c4s1 : CState := { initState with dstk := [⟨Val.vnone, Rout.op OpName.ADD, 100⟩] }

def c4t1 : CState :=
  { initState with cstk := [Entry.rout (Rout.op OpName.ADD), Entry.dat Val.vnone] }

def c4s2 : CState :=
  { initState with
    pstk := [PEnt.sent SentName.IF],
    dstk := [⟨Val.vnone, Rout.op OpName.ADD, 100⟩] }

def c4t2 : CState :=
  { initState with
    cstk := [Entry.rout (Rout.op OpName.ADD), Entry.dat Val.vnone,
      Entry.rout (Rout.op OpName.JPZ), Entry.dat placeholder],
    pstk := [PEnt.sent SentName.THEN, PEnt.patch 3] }

def c4s3 : CState :=
  { initState with pstk := [PEnt.sent SentName.THEN, PEnt.patch 1] }

def c4t3 : CState :=
  { initState with
    cstk := [Entry.rout (Rout.op OpName.JP), Entry.dat (Val.addr 2)],
    pstk := [PEnt.sent SentName.ELSE, PEnt.patch 1] }

def c4s4 : CState :=
  { initState with pstk := [PEnt.sent SentName.THEN, PEnt.sent SentName.FI] }

def c4s5 : CState := { initState with pstk := [PEnt.sent SentName.WHILE] }

def c4t5 : CState :=
  { initState with
    cstk := [Entry.rout (Rout.op OpName.JPZ), Entry.dat placeholder],
    pstk := [PEnt.sent SentName.DO, PEnt.patch 1] }

def c4s6 : CState :=
  { initState with pstk := [PEnt.sent SentName.FOR, PEnt.varIdx 0] }

def c4t6 : CState :=
  { initState with
    cstk := [Entry.rout (Rout.op OpName.VPUSH), Entry.dat (Val.addr 0)],
    dstk := [⟨Val.vnone, Rout.op OpName.LT, 50⟩],
    pstk := [PEnt.sent SentName.FOR, PEnt.varIdx 0, PEnt.target 0] }

def c4s7 : CState :=
  { initState with
    cstk := [Entry.rout (Rout.op OpName.JPZ), Entry.dat placeholder],
    pstk := [PEnt.sent SentName.DO, PEnt.patch 1, PEnt.target 0] }

def c4t7 : CState :=
  { initState with
    cstk := [Entry.rout (Rout.op OpName.JPZ), Entry.dat (Val.addr 4),
      Entry.rout (Rout.op OpName.JP), Entry.dat (Val.addr 0)] }

def c4s8 : CState :=
  { initState with
    cstk := [Entry.rout (Rout.op OpName.JPZ), Entry.dat placeholder],
    pstk := [PEnt.sent SentName.DO, PEnt.patch 1, PEnt.varIdx 0, PEnt.target 0] }

def c4t8 : CState :=
  { initState with
    cstk := [Entry.rout (Rout.op OpName.JPZ), Entry.dat (Val.addr 6),
      Entry.rout (Rout.op OpName.VINCR), Entry.dat (Val.addr 0),
      Entry.rout (Rout.op OpName.JP), Entry.dat (Val.addr 0)] }

def c4s9 : CState :=
  { initState with
    pstk := [PEnt.sent SentName.BEGIN, PEnt.dictLen 0, PEnt.code []] }

/-- The state after compiling the one-word source "(": compile_file's
final compile_words(0) pops the priority-0 barrier triple and emits the
marker string ")" into an opcode slot, with no error reported and both
_DSTK and _PSTK empty. -/
def c7mid : CState :=
  { initState with dstk := [⟨Val.vnone, Rout.marker ")", 0⟩] }

def c7bad : CState :=
  { initState with cstk := [Entry.rout (Rout.marker ")"), Entry.dat Val.vnone] }

/-- The state after compiling the single number 1. -/
def c7wit : CState :=
  { initState with cstk := [Entry.rout (Rout.op OpName.PUSH), Entry.dat (Val.num 1)] }

/-- A one-instruction program exercising RAND. -/
def c9code : List Entry := [Entry.rout (Rout.op OpName.RAND), Entry.dat Val.vnone]

/-- The state after its single step. -/
def c9step : VMState :=
  { code := c9code, ip := 2, dstk := [Val.num (rngNext 0).1], vstk := [],
    rng := (rngNext 0).2, out := [] }

/-- Two-step structural induction for lists of code-stream entries. -/
theorem twoStepInd (P : List Entry → Prop) (h0 : P []) (h1 : ∀ e, P [e])
    (h2 : ∀ e f c, P c → P (e :: f :: c)) : ∀ c, P c := by
  have key : ∀ n c, List.length c ≤ n → P c := by
    intro n
    induction n with
    | zero =>
        intro c hc
        match c with
        | [] => exact h0
        | e :: t => simp at hc
    | succ n ih =>
        intro c hc
        match c with
        | [] => exact h0
        | [e] => exact h1 e
        | e :: f :: t =>
            refine h2 e f t (ih t ?_)
            simp only [List.length_cons] at hc
            omega
  intro c
  exact key c.length c le_rfl

/-- Appending a (routine, datum) pair keeps the code stream well-shaped. -/
theorem codeOkB_append (r : Rout) (e : Entry) :
    ∀ c, codeOkB c = true → codeOkB (c ++ [Entry.rout r, e]) = true := by
  refine twoStepInd _ ?_ ?_ ?_
  · intro _; rfl
  · intro f h
    cases f with
    | rout r0 => simp [codeOkB] at h
    | dat v => simp [codeOkB] at h
  · intro f g c ih h
    cases f with
    | dat v => simp [codeOkB] at h
    | rout r0 =>
        simp only [codeOkB] at h
        simpa [codeOkB] using ih h

/-- A well-shaped code stream has even length. -/
theorem codeOkB_even : ∀ c, codeOkB c = true → c.length % 2 = 0 := by
  refine twoStepInd _ ?_ ?_ ?_
  · intro _; rfl
  · intro f h
    cases f with
    | rout r0 => simp [codeOkB] at h
    | dat v => simp [codeOkB] at h
  · intro f g c ih h
    cases f with
    | dat v => simp [codeOkB] at h
    | rout r0 =>
        simp only [codeOkB] at h
        have := ih h
        simp only [List.length_cons]
        omega

/-- Overwriting an odd (datum) slot keeps the code stream well-shaped. -/
theorem codeOkB_set (e : Entry) :
    ∀ c, codeOkB c = true → ∀ i, i % 2 = 1 → codeOkB (c.set i e) = true := by
  refine twoStepInd _ ?_ ?_ ?_
  · intro h i _
    simpa using h
  · intro f h
    cases f with
    | rout r0 => simp [codeOkB] at h
    | dat v => simp [codeOkB] at h
  · intro f g c ih h i hi
    cases f with
    | dat v => simp [codeOkB] at h
    | rout r0 =>
        simp only [codeOkB] at h
        match i, hi with
        | 1, _ => simpa [List.set, codeOkB] using h
        | (n + 2), hn =>
            have hn2 : n % 2 = 1 := by omega
            simpa [List.set, codeOkB] using ih h n hn2

/-- The deferred stack left by the flush loop is a dropWhile of the
priorities, independently of the code accumulator. -/
theorem flushA_fst (n : ℕ) :
    ∀ d c, (flushA n d c).1 = d.dropWhile (fun t => decide (n ≤ t.p)) := by
  intro d
  induction d with
  | nil => intro c; simp [flushA, List.dropWhile]
  | cons t d ih =>
      intro c
      by_cases h : n ≤ t.p
      · simp [flushA, h, List.dropWhile, ih]
      · simp [flushA, h, List.dropWhile]

/-- The flush loop only appends (routine, datum) pairs to the code. -/
theorem flushA_snd_ok (n : ℕ) :
    ∀ d c, codeOkB c = true → codeOkB (flushA n d c).2 = true := by
  intro d
  induction d with
  | nil => intro c h; exact h
  | cons t d ih =>
      intro c h
      by_cases hp : n ≤ t.p
      · simp only [flushA, if_pos hp]
        exact ih _ (codeOkB_append _ _ _ h)
      · simpa [flushA, hp] using h

/-- Flushing at a barrier no higher than a previous one changes nothing:
the surviving triples all have priority below the first barrier. -/
theorem dropWhile_flush_twice (m n : ℕ) (hmn : m ≤ n) (d : List DTrip) :
    (d.dropWhile (fun t => decide (m ≤ t.p))).dropWhile (fun t => decide (n ≤ t.p))
      = d.dropWhile (fun t => decide (m ≤ t.p)) := by
  induction d with
  | nil => simp [List.dropWhile]
  | cons t d ih =>
      by_cases h : m ≤ t.p
      · simpa [List.dropWhile, h] using ih
      · have hn : ¬ n ≤ t.p := by omega
        simp [List.dropWhile, h, hn]

/-- Flushing at barrier 0 empties the deferred stack. -/
theorem dropWhile_zero (d : List DTrip) :
    d.dropWhile (fun t => decide (0 ≤ t.p)) = [] := by
  induction d with
  | nil => rfl
  | cons t d ih => simp [List.dropWhile, ih]

/-- Parity of the recorded patch slot: the datum slot of a freshly
emitted pair sits at an odd index. -/
theorem appendedPairSubOneOdd (c : List Entry) (h : codeOkB c = true)
    (r : Rout) (e : Entry) :
    ((c ++ [Entry.rout r, e]).length - 1) % 2 = 1 := by
  have := codeOkB_even c h
  simp only [List.length_append, List.length_cons, List.length_nil]
  omega

/-- emit preserves the compile-time invariant. -/
theorem good_emit (r : Rout) (v : Val) (s : CState) (h : Good s) :
    Good (emit r v s) :=
  ⟨codeOkB_append r _ _ h.1, h.2⟩

/-- compile_words preserves the compile-time invariant. -/
theorem good_cw (n : ℕ) (s : CState) (h : Good s) :
    Good (compile_words n s) :=
  ⟨flushA_snd_ok n s.dstk s.cstk h.1, h.2⟩

/-- compile preserves the compile-time invariant. -/
theorem good_compileW (p : ℕ) (r : Rout) (v : Val) (s : CState) (h : Good s) :
    Good (compileW p r v s) := by
  by_cases hp : p = 255
  · simpa [compileW, hp] using good_emit r v s h
  · have h1 := good_cw p s h
    simp only [compileW, if_neg hp]
    exact ⟨h1.1, h1.2⟩

/-- The FI patch loop preserves the invariant on both stacks. -/
theorem fiLoop_good :
    ∀ (p : List PEnt) (c : List Entry) (p2 : List PEnt) (c2 : List Entry),
      p.all pentOk = true → codeOkB c = true → fiLoop p c = some (p2, c2) →
      p2.all pentOk = true ∧ codeOkB c2 = true := by
  intro p
  induction p with
  | nil => intro c p2 c2 _ _ he; simp [fiLoop] at he
  | cons e p ih =>
      intro c p2 c2 hall hc he
      rw [List.all_cons, Bool.and_eq_true] at hall
      cases e with
      | sent m =>
          cases m with
          | FI =>
              simp only [fiLoop, Option.some.injEq, Prod.mk.injEq] at he
              obtain ⟨h1, h2⟩ := he
              exact ⟨h1 ▸ hall.2, h2 ▸ hc⟩
          | IF => simp [fiLoop] at he
          | THEN => simp [fiLoop] at he
          | ELSE => simp [fiLoop] at he
          | WHILE => simp [fiLoop] at he
          | DO => simp [fiLoop] at he
          | FOR => simp [fiLoop] at he
          | BEGIN => simp [fiLoop] at he
      | patch i =>
          simp only [fiLoop] at he
          have hi : i % 2 = 1 := by
            have := hall.1
            simpa [pentOk] using this
          exact ih _ _ _ hall.2 (codeOkB_set _ c hc i hi) he
      | target j => simp [fiLoop] at he
      | varIdx i => simp [fiLoop] at he
      | dictLen n => simp [fiLoop] at he
      | code c0 => simp [fiLoop] at he
      | save => simp [fiLoop] at he

/-- The close_par loop only appends pairs to the code. -/
theorem closeAux_good (m : String) :
    ∀ d c d2 c2, codeOkB c = true → closeAux m d c = some (d2, c2) →
      codeOkB c2 = true := by
  intro d
  induction d with
  | nil => intro c d2 c2 _ he; simp [closeAux] at he
  | cons t d ih =>
      intro c d2 c2 hc he
      by_cases ht : t.r = Rout.marker m
      · simp only [closeAux, if_pos ht, Option.some.injEq, Prod.mk.injEq] at he
        exact he.2 ▸ hc
      · simp only [closeAux, if_neg ht] at he
        exact ih _ _ _ (codeOkB_append _ _ _ hc) he

/-- Popping entries from the parse stack preserves its invariant. -/
theorem all_tail {e : PEnt} {l : List PEnt} (h : (e :: l).all pentOk = true) :
    l.all pentOk = true := by
  rw [List.all_cons, Bool.and_eq_true] at h
  exact h.2

/-- Head of a well-formed parse stack satisfies the per-entry invariant. -/
theorem all_head {e : PEnt} {l : List PEnt} (h : (e :: l).all pentOk = true) :
    pentOk e = true := by
  rw [List.all_cons, Bool.and_eq_true] at h
  exact h.1

/-- Pushing an acceptable entry preserves the parse-stack invariant. -/
theorem all_cons_pentOk (e : PEnt) (l : List PEnt) (h1 : pentOk e = true)
    (h2 : l.all pentOk = true) : (e :: l).all pentOk = true := by
  rw [List.all_cons, h1, h2]
  rfl

/-- A recorded patch entry is acceptable iff its slot is odd. -/
theorem pentOk_patch_intro {i : ℕ} (h : i % 2 = 1) :
    pentOk (PEnt.patch i) = true := by
  simp [pentOk, h]

/-- Extract the parity of a recorded patch slot. -/
theorem patch_odd {i : ℕ} (h : pentOk (PEnt.patch i) = true) : i % 2 = 1 := by
  simpa [pentOk] using h

/-- Extract well-shapedness of a saved code stream. -/
theorem pentOk_code_elim {c : List Entry} (h : pentOk (PEnt.code c) = true) :
    codeOkB c = true := by
  simpa [pentOk] using h

/-- A saved code stream entry is acceptable when well-shaped. -/
theorem pentOk_code_intro {c : List Entry} (h : codeOkB c = true) :
    pentOk (PEnt.code c) = true := by
  simpa [pentOk] using h

/-- IF preserves the compile-time invariant. -/
theorem good_act_if (s : CState) (h : Good s) : Good (act_if s) := by
  have h1 := good_cw 1 s h
  exact ⟨h1.1, all_cons_pentOk _ _ rfl (all_cons_pentOk _ _ rfl h1.2)⟩

/-- THEN preserves the compile-time invariant. -/
theorem good_act_then (s t : CState) (h : Good s) (he : act_then s = some t) :
    Good t := by
  unfold act_then at he
  split at he
  case h_2 => exact absurd he (by simp)
  case h_1 rest heq =>
      rw [Option.some.injEq] at he
      subst he
      have hrest : rest.all pentOk = true := all_tail (heq ▸ h.2)
      have h1 : Good (compile_words 1 { s with pstk := rest }) :=
        good_cw 1 _ ⟨h.1, hrest⟩
      have h2 := good_emit (Rout.op OpName.JPZ) placeholder _ h1
      refine ⟨h2.1, all_cons_pentOk _ _ rfl (all_cons_pentOk _ _
        (pentOk_patch_intro ?_) h2.2)⟩
      exact appendedPairSubOneOdd _ h1.1 _ _

/-- ELSE preserves the compile-time invariant. -/
theorem good_act_else (s t : CState) (h : Good s) (he : act_else s = some t) :
    Good t := by
  unfold act_else at he
  split at he
  case h_2 => exact absurd he (by simp)
  case h_1 rest heq =>
      have hrest : rest.all pentOk = true := all_tail (heq ▸ h.2)
      have h1 : Good (compile_words 1 { s with pstk := rest }) :=
        good_cw 1 _ ⟨h.1, hrest⟩
      have h2 := good_emit (Rout.op OpName.JP) placeholder _ h1
      unfold act_else2 at he
      split at he
      case h_2 => exact absurd he (by simp)
      case h_1 i rest2 heq2 =>
          rw [Option.some.injEq] at he
          subst he
          have hall2 := heq2 ▸ h2.2
          have hi : i % 2 = 1 := patch_odd (all_head hall2)
          have hodd :
              ((emit (Rout.op OpName.JP) placeholder
                  (compile_words 1 { s with pstk := rest })).cstk.length - 1) % 2
                = 1 := appendedPairSubOneOdd _ h1.1 _ _
          exact ⟨codeOkB_set _ _ h2.1 i hi,
            all_cons_pentOk _ _ rfl (all_cons_pentOk _ _
              (pentOk_patch_intro hodd) (all_tail hall2))⟩

/-- The tail of ELIF preserves the compile-time invariant. -/
theorem good_act_elif2 (s1 t : CState) (h : Good s1) (he : act_elif2 s1 = some t) :
    Good t := by
  unfold act_elif2 at he
  split at he
  case h_2 => exact absurd he (by simp)
  case h_1 e rest heq =>
      rw [Option.some.injEq] at he
      subst he
      exact ⟨h.1, all_cons_pentOk _ _ rfl (all_tail (heq ▸ h.2))⟩

/-- ELIF preserves the compile-time invariant. -/
theorem good_act_elif (s t : CState) (h : Good s) (he : act_elif s = some t) :
    Good t := by
  unfold act_elif at he
  cases hel : act_else s with
  | none => rw [hel] at he; exact Option.noConfusion he
  | some s1 =>
      rw [hel] at he
      exact good_act_elif2 s1 t (good_act_else s s1 h hel) he

/-- The FI patch phase preserves the compile-time invariant. -/
theorem good_act_fi2 (s1 t : CState) (h : Good s1) (he : act_fi2 s1 = some t) :
    Good t := by
  unfold act_fi2 at he
  cases hfi : fiLoop s1.pstk s1.cstk with
  | none => rw [hfi] at he; exact Option.noConfusion he
  | some pc =>
      rw [hfi] at he
      simp only [Option.map_some', Option.some.injEq] at he
      subst he
      have hg := fiLoop_good _ _ _ _ h.2 h.1 hfi
      exact ⟨hg.2, hg.1⟩

/-- FI preserves the compile-time invariant. -/
theorem good_act_fi (s t : CState) (h : Good s) (he : act_fi s = some t) :
    Good t := by
  unfold act_fi at he
  split at he
  case h_2 => exact absurd he (by simp)
  case h_1 m rest heq =>
      split at he
      case isFalse => exact absurd he (by simp)
      case isTrue hm =>
          exact good_act_fi2 (compile_words 1 { s with pstk := rest }) t
            (good_cw 1 { s with pstk := rest } ⟨h.1, all_tail (heq ▸ h.2)⟩) he

/-- WHILE preserves the compile-time invariant. -/
theorem good_act_while (s : CState) (h : Good s) : Good (act_while s) := by
  have h1 := good_cw 1 s h
  exact ⟨h1.1, all_cons_pentOk _ _ rfl (all_cons_pentOk _ _ rfl h1.2)⟩

/-- DO preserves the compile-time invariant. -/
theorem good_act_do (s t : CState) (h : Good s) (he : act_do s = some t) :
    Good t := by
  unfold act_do at he
  split at he
  case h_2 => exact absurd he (by simp)
  case h_1 m rest heq =>
      split at he
      case isFalse => exact absurd he (by simp)
      case isTrue hm =>
          rw [Option.some.injEq] at he
          subst he
          have hrest : rest.all pentOk = true := all_tail (heq ▸ h.2)
          have h1 : Good (compile_words 1 { s with pstk := rest }) :=
            good_cw 1 _ ⟨h.1, hrest⟩
          have h2 := good_emit (Rout.op OpName.JPZ) placeholder _ h1
          refine ⟨h2.1, all_cons_pentOk _ _ rfl (all_cons_pentOk _ _
            (pentOk_patch_intro ?_) h2.2)⟩
          exact appendedPairSubOneOdd _ h1.1 _ _

/-- OD preserves the compile-time invariant. -/
theorem good_act_od (s t : CState) (h : Good s) (he : act_od s = some t) :
    Good t := by
  unfold act_od at he
  split at he
  case h_2 => exact absurd he (by simp)
  case h_1 b a rest heq =>
      rw [Option.some.injEq] at he
      subst he
      have hall := heq ▸ h.2
      have hb : b % 2 = 1 := patch_odd (all_head (all_tail hall))
      have hrest : rest.all pentOk = true := all_tail (all_tail (all_tail hall))
      have h1 : Good (compile_words 5 { s with pstk := rest }) :=
        good_cw 5 _ ⟨h.1, hrest⟩
      have h2 := good_emit (Rout.op OpName.JP) (Val.addr a) _ h1
      exact ⟨codeOkB_set _ _ h2.1 b hb, h2.2⟩

/-- FOR preserves the compile-time invariant. -/
theorem good_act_for (vi : ℕ) (s : CState) (h : Good s) : Good (act_for vi s) := by
  have h1 := good_compileW 50 (Rout.op OpName.VSTORE) (Val.addr vi) s h
  exact ⟨h1.1, all_cons_pentOk _ _ rfl (all_cons_pentOk _ _ rfl h1.2)⟩

/-- The middle phase of TO preserves the compile-time invariant. -/
theorem good_act_to2 (s1 t : CState) (h : Good s1) (he : act_to2 s1 = some t) :
    Good t := by
  unfold act_to2 at he
  split at he
  case h_2 => exact absurd he (by simp)
  case h_1 i rest heq =>
      rw [Option.some.injEq] at he
      subst he
      have hrest : rest.all pentOk = true := all_tail (all_tail (heq ▸ h.2))
      have h2 := good_emit (Rout.op OpName.VPUSH) (Val.addr i)
        { s1 with pstk := rest } ⟨h.1, hrest⟩
      have h3 := good_compileW 50 (Rout.op OpName.LT) Val.vnone _ h2
      exact ⟨h3.1, all_cons_pentOk _ _ rfl (all_cons_pentOk _ _ rfl
        (all_cons_pentOk _ _ rfl h3.2))⟩

/-- TO preserves the compile-time invariant. -/
theorem good_act_to (s t : CState) (h : Good s) (he : act_to s = some t) :
    Good t :=
  good_act_to2 _ t (good_cw 1 s h) he

/-- NEXT preserves the compile-time invariant. -/
theorem good_act_next (s t : CState) (h : Good s) (he : act_next s = some t) :
    Good t := by
  unfold act_next at he
  split at he
  case h_2 => exact absurd he (by simp)
  case h_1 b i j rest heq =>
      rw [Option.some.injEq] at he
      subst he
      have hall := heq ▸ h.2
      have hb : b % 2 = 1 := patch_odd (all_head (all_tail hall))
      have hrest : rest.all pentOk = true :=
        all_tail (all_tail (all_tail (all_tail hall)))
      have h1 := good_emit (Rout.op OpName.VINCR) (Val.addr i)
        { s with pstk := rest } ⟨h.1, hrest⟩
      have h2 := good_emit (Rout.op OpName.JP) (Val.addr j) _ h1
      exact ⟨codeOkB_set _ _ h2.1 b hb, h2.2⟩

/-- BEGIN preserves the compile-time invariant. -/
theorem good_act_begin (p : ℕ) (w : String) (s : CState) (h : Good s) :
    Good (act_begin p w s) := by
  have h1 : Good { s with pstk := PEnt.code s.cstk :: s.pstk, cstk := [] } :=
    ⟨rfl, all_cons_pentOk _ _ (pentOk_code_intro h.1) h.2⟩
  have h2 := good_cw 1 _ h1
  exact ⟨h2.1, all_cons_pentOk _ _ rfl (all_cons_pentOk _ _ rfl h2.2)⟩

/-- The second half of END preserves the compile-time invariant. -/
theorem good_act_end2 (s1 t : CState) (h : Good s1) (he : act_end2 s1 = some t) :
    Good t := by
  unfold act_end2 at he
  split at he
  case h_2 => exact absurd he (by simp)
  case h_1 d c rest heq =>
      rw [Option.some.injEq] at he
      subst he
      have hall := heq ▸ h.2
      exact ⟨pentOk_code_elim (all_head (all_tail (all_tail hall))),
        all_tail (all_tail (all_tail hall))⟩

/-- END preserves the compile-time invariant. -/
theorem good_act_end (s t : CState) (h : Good s) (he : act_end s = some t) :
    Good t :=
  good_act_end2 _ t (good_cw 0 s h) he

/-- DEF preserves the compile-time invariant (either branch of the "="
check: the state effects coincide). -/
theorem good_DEF_run (w : String) (b : Bool) (s : CState) (h : Good s) :
    Good (DEF_run w b s).1 := by
  have h1 : Good { s with vstk := s.vstk ++ [Val.num 0] } := ⟨h.1, h.2⟩
  have h2 := good_cw 1 _ h1
  have h3 : Good (insert_word w 255 (Rout.op OpName.VPUSH)
      (Val.addr s.vstk.length) { s with vstk := s.vstk ++ [Val.num 0] }) :=
    ⟨h2.1, h2.2⟩
  exact good_compileW 50 _ _ _ h3

/-- STACK preserves the compile-time invariant. -/
theorem good_act_stack (w : String) (s : CState) (h : Good s) :
    Good (act_stack w s) := by
  have h1 : Good { s with vstk := s.vstk ++ [Val.ustack []] } := ⟨h.1, h.2⟩
  have h2 := good_cw 1 _ h1
  exact ⟨h2.1, h2.2⟩

/-- Every compile-time event preserves the compile-time invariant. -/
theorem good_step (a : Act) (s t : CState) (h : Good s)
    (he : applyAct a s = some t) : Good t := by
  cases a with
  | word p r v =>
      simp only [applyAct] at he
      split at he
      · exact absurd he (by simp)
      · rw [Option.some.injEq] at he
        exact he ▸ good_compileW p (Rout.op r) v s h
  | openPar m =>
      simp only [applyAct, Option.some.injEq] at he
      exact he ▸ ⟨h.1, h.2⟩
  | closePar m =>
      simp only [applyAct] at he
      cases hcl : closeAux m s.dstk s.cstk with
      | none => rw [hcl] at he; exact Option.noConfusion he
      | some dc =>
          rw [hcl] at he
          simp only [Option.map_some', Option.some.injEq] at he
          exact he ▸ ⟨closeAux_good m _ _ _ _ h.1 hcl, h.2⟩
  | closeBra m =>
      simp only [applyAct] at he
      cases hcl : closeAux m s.dstk s.cstk with
      | none => rw [hcl] at he; exact Option.noConfusion he
      | some dc =>
          rw [hcl] at he
          simp only [Option.map_some', Option.some.injEq] at he
          have hg : Good { s with dstk := dc.1, cstk := dc.2 } :=
            ⟨closeAux_good m _ _ _ _ h.1 hcl, h.2⟩
          exact he ▸ good_emit _ _ _ hg
  | newline =>
      simp only [applyAct, Option.some.injEq] at he
      exact he ▸ good_cw 0 s h
  | eof =>
      simp only [applyAct, Option.some.injEq] at he
      exact he ▸ good_cw 0 s h
  | ifW =>
      simp only [applyAct, Option.some.injEq] at he
      exact he ▸ good_act_if s h
  | thenW => exact good_act_then s t h he
  | elseW => exact good_act_else s t h he
  | elifW => exact good_act_elif s t h he
  | fiW => exact good_act_fi s t h he
  | whileW =>
      simp only [applyAct, Option.some.injEq] at he
      exact he ▸ good_act_while s h
  | doW => exact good_act_do s t h he
  | odW => exact good_act_od s t h he
  | forW vi =>
      simp only [applyAct, Option.some.injEq] at he
      exact he ▸ good_act_for vi s h
  | toW => exact good_act_to s t h he
  | nextW => exact good_act_next s t h he
  | beginW p w =>
      simp only [applyAct, Option.some.injEq] at he
      exact he ▸ good_act_begin p w s h
  | endW => exact good_act_end s t h he
  | strconst t0 =>
      simp only [applyAct, Option.some.injEq] at he
      exact he ▸ good_compileW 255 _ _ s h
  | defW w =>
      simp only [applyAct, Option.some.injEq] at he
      exact he ▸ good_DEF_run w true s h
  | stackW w =>
      simp only [applyAct, Option.some.injEq] at he
      exact he ▸ good_act_stack w s h
  | includeStart =>
      simp only [applyAct, Option.some.injEq] at he
      exact he ▸ ⟨h.1, all_cons_pentOk _ _ rfl (all_cons_pentOk _ _ rfl
        (all_cons_pentOk _ _ rfl h.2))⟩
  | includeEnd =>
      simp only [applyAct] at he
      split at he
      case h_2 => exact absurd he (by simp)
      case h_1 rest heq =>
          rw [Option.some.injEq] at he
          subst he
          exact ⟨h.1, all_tail (all_tail (all_tail (heq ▸ h.2)))⟩

/-- Every state reached by an error-free compilation satisfies the
compile-time invariant. -/
theorem reach_good (s : CState) (h : Reach s) : Good s := by
  induction h with
  | init => exact ⟨rfl, rfl⟩
  | step a _ hs ih => exact good_step a _ _ ih hs

/-- The deferred stack after compile_words is a dropWhile on priorities. -/
theorem cw_dstk (n : ℕ) (s : CState) :
    (compile_words n s).dstk = s.dstk.dropWhile (fun tr => decide (n ≤ tr.p)) := by
  simp [compile_words, flushA_fst]

/-- NEWLINE (and the end-of-file flush) empties the deferred stack. -/
theorem newline_dstk (s t : CState) (h : applyAct Act.newline s = some t) :
    t.dstk = [] := by
  simp only [applyAct, Option.some.injEq] at h
  subst h
  rw [cw_dstk]
  exact dropWhile_zero s.dstk

/-- THEN flushes the deferred stack at barrier 1. -/
theorem then_dstk (s t : CState) (h : applyAct Act.thenW s = some t) :
    t.dstk = s.dstk.dropWhile (fun tr => decide (1 ≤ tr.p)) := by
  simp only [applyAct] at h
  unfold act_then at h
  split at h
  case h_2 => exact Option.noConfusion h
  case h_1 rest heq =>
      rw [Option.some.injEq] at h
      subst h
      simp [emit, cw_dstk]

/-- ELSE flushes the deferred stack at barrier 1. -/
theorem else_dstk (s t : CState) (h : applyAct Act.elseW s = some t) :
    t.dstk = s.dstk.dropWhile (fun tr => decide (1 ≤ tr.p)) := by
  simp only [applyAct] at h
  unfold act_else at h
  split at h
  case h_2 => exact Option.noConfusion h
  case h_1 rest heq =>
      unfold act_else2 at h
      split at h
      case h_2 => exact Option.noConfusion h
      case h_1 i rest2 heq2 =>
          rw [Option.some.injEq] at h
          subst h
          simp [emit, cw_dstk]

/-- FI flushes the deferred stack at barrier 1. -/
theorem fi_dstk (s t : CState) (h : applyAct Act.fiW s = some t) :
    t.dstk = s.dstk.dropWhile (fun tr => decide (1 ≤ tr.p)) := by
  simp only [applyAct] at h
  unfold act_fi at h
  split at h
  case h_2 => exact Option.noConfusion h
  case h_1 m rest heq =>
      split at h
      case isFalse => exact Option.noConfusion h
      case isTrue hm =>
          unfold act_fi2 at h
          cases hfi : fiLoop (compile_words 1 { s with pstk := rest }).pstk
              (compile_words 1 { s with pstk := rest }).cstk with
          | none => rw [hfi] at h; exact Option.noConfusion h
          | some pc =>
              rw [hfi] at h
              simp only [Option.map_some', Option.some.injEq] at h
              subst h
              simp [cw_dstk]

/-- DO flushes the deferred stack at barrier 1. -/
theorem do_dstk (s t : CState) (h : applyAct Act.doW s = some t) :
    t.dstk = s.dstk.dropWhile (fun tr => decide (1 ≤ tr.p)) := by
  simp only [applyAct] at h
  unfold act_do at h
  split at h
  case h_2 => exact Option.noConfusion h
  case h_1 m rest heq =>
      split at h
      case isFalse => exact Option.noConfusion h
      case isTrue hm =>
          rw [Option.some.injEq] at h
          subst h
          simp [emit, cw_dstk]

/-- TO flushes the deferred stack at barrier 1 and then defers the LT of
the loop condition at priority 50. -/
theorem to_dstk (s t : CState) (h : applyAct Act.toW s = some t) :
    t.dstk = ⟨Val.vnone, Rout.op OpName.LT, 50⟩ ::
      s.dstk.dropWhile (fun tr => decide (1 ≤ tr.p)) := by
  simp only [applyAct] at h
  unfold act_to at h
  unfold act_to2 at h
  split at h
  case h_2 => exact Option.noConfusion h
  case h_1 i rest heq =>
      rw [Option.some.injEq] at h
      subst h
      simp only [act_to3, compileW, emit, cw_dstk]
      rw [if_neg (by omega : ¬ (50 : ℕ) = 255)]
      simp only [cw_dstk]
      rw [dropWhile_flush_twice 1 50 (by omega)]

/-- OD flushes the deferred stack at barrier 5. -/
theorem od_dstk (s t : CState) (h : applyAct Act.odW s = some t) :
    t.dstk = s.dstk.dropWhile (fun tr => decide (5 ≤ tr.p)) := by
  simp only [applyAct] at h
  unfold act_od at h
  split at h
  case h_2 => exact Option.noConfusion h
  case h_1 b a rest heq =>
      rw [Option.some.injEq] at h
      subst h
      simp [emit, cw_dstk]

/-- NEXT performs no flush at all. -/
theorem next_dstk (s t : CState) (h : applyAct Act.nextW s = some t) :
    t.dstk = s.dstk := by
  simp only [applyAct] at h
  unfold act_next at h
  split at h
  case h_2 => exact Option.noConfusion h
  case h_1 b i j rest heq =>
      rw [Option.some.injEq] at h
      subst h
      simp [emit]

/-- END empties the deferred stack (compile_words 0). -/
theorem end_dstk (s t : CState) (h : applyAct Act.endW s = some t) :
    t.dstk = [] := by
  simp only [applyAct] at h
  unfold act_end at h
  unfold act_end2 at h
  split at h
  case h_2 => exact Option.noConfusion h
  case h_1 d c rest heq =>
      rw [Option.some.injEq] at h
      subst h
      rw [show ({ emit (Rout.op OpName.RET) (Val.addr 0) (compile_words 0 s) with
        pstk := rest, dict := (compile_words 0 s).dict.take d,
        cstk := c } : CState).dstk = (compile_words 0 s).dstk from rfl]
      rw [cw_dstk]
      exact dropWhile_zero s.dstk

/-- Claim C1: FPUT is claimed to pop the handle and the integer code and
write the character without the fatal I/O error.  In the source
(wtf.py line 493) the expression chr(int(POP)) applies int() to the
function object POP, so after popping the handle the TypeError is caught
and FPUT always dies with the fatal "I/O error (writing a file)", for
every handle f and number n on the stack; nothing is ever written. -/
theorem C1_fput_always_fatal (f n : Val) (rest : List Val) :
    FPUT_run (f :: n :: rest) = (IOOut.ioFatalWrite, n :: rest) := rfl

/-- Claim C2 counterexample: with a clean error counter but a non-empty
deferred stack, the end-of-compilation check reports a recoverable error
(the final counter is 1), yet execute() is still invoked — the source
calls execute() inside "if _ERRNO == 0" after the two checks, which do
not return.  This contradicts the claim that execution never starts once
at least one recoverable error (including those of the final checks) was
reported. -/
theorem C2_execute_despite_error : (mainGate 0 1 0).1 = true ∧ (mainGate 0 1 0).2 = 1 := by
  constructor <;> rfl

/-- Claim C2 (amended): execute() is invoked exactly when the recoverable
error counter is zero at the end of compile_file, before the two
end-of-compilation checks; errors reported by those checks do not
prevent execution. -/
theorem C2_gate_iff (e dlen plen : ℕ) : (mainGate e dlen plen).1 = true ↔ e = 0 := by
  by_cases he : e = 0
  · subst he
    simp only [mainGate, if_pos rfl]
    constructor
    · intro _; trivial
    · intro _
      by_cases h1 : 0 < dlen <;> by_cases h2 : 0 < plen <;>
        simp [error_on, h1, h2]
  · simp [mainGate, he]

/-- Claim C5: the claim says the 100th recoverable error aborts the
process and no 101st is reported.  In the source (wtf.py lines 17-20)
the counter is incremented and then compared with "> 100", so the 100th
error (counter 99 → 100) is reported and compilation continues; only the
101st error (counter 100 → 101) aborts, and its message is still printed
before the abort. -/
theorem C5_abort_on_101st :
    (error_on true 99).reported = true ∧ (error_on true 99).aborted = false ∧
    (error_on true 99).errno = 100 ∧
    (error_on true 100).reported = true ∧ (error_on true 100).aborted = true := by
  refine ⟨rfl, ?_, rfl, rfl, ?_⟩ <;> decide

/-- Claim C3 counterexample: executing AND on the stack [1, 0] (top 0)
pops only one value — Python's "and" short-circuits, so the second POP()
never runs — and pushes 0.0: the stack keeps length 2 instead of
decreasing by one as the claim states. -/
theorem C3_and_not_binary :
    (AND [Val.num 0, Val.num 1]).map List.length = some 2 ∧
    ¬ (AND [Val.num 0, Val.num 1]).map List.length
        = some ([Val.num 0, Val.num 1].length - 1) := by
  constructor
  · rfl
  · intro h
    rw [show (AND [Val.num 0, Val.num 1]).map List.length = some 2 from rfl] at h
    simp at h

/-- Claim C3 (amended): AND pops two values only when the first popped
value is non-zero, and otherwise pops a single value and pushes 0.0 (net
stack length unchanged); OR dually pops a single value and pushes 1.0
when the first popped value is non-zero.  In each case the pushed value
is the Number 0.0 or 1.0. -/
theorem C3_shortcircuit (a b : Val) (rest : List Val) :
    AND (b :: a :: rest)
      = some ((if neZeroVal b then Val.num (if neZeroVal a then 1 else 0)
          else Val.num 0) :: (if neZeroVal b then rest else a :: rest)) ∧
    OR (b :: a :: rest)
      = some ((if neZeroVal b then Val.num 1
          else Val.num (if neZeroVal a then 1 else 0)) ::
          (if neZeroVal b then a :: rest else rest)) := by
  by_cases hb : neZeroVal b <;> simp [AND, OR, hb]

/-- Claim C4 counterexample: at a NEWLINE the compiler flushes with
barrier 0, not 1: on a deferred stack holding only the priority-0
barrier triple of an unmatched "(", NEWLINE pops and emits that triple
(the result stack is empty), while the claimed barrier-1 flush would
have left it in place. -/
theorem C4_newline_flushes_barrier0 :
    (applyAct Act.newline c4cex).map CState.dstk = some [] ∧
    c4cex.dstk.dropWhile (fun tr => decide (1 ≤ tr.p)) = c4cex.dstk ∧
    c4cex.dstk ≠ [] := by
  refine ⟨rfl, rfl, ?_⟩
  simp [c4cex, initState]

/-- Claim C4 (amended): among the statement-boundary words, THEN, ELSE,
FI and DO flush the deferred stack with barrier 1; TO flushes with
barrier 1 and then defers the LT of its loop condition at priority 50;
NEWLINE and END flush with barrier 0, which also pops priority-0
parenthesis barriers; OD flushes with barrier 5; NEXT performs no flush
at all. -/
theorem C4_statement_barriers
    (s1 t1 s2 t2 s3 t3 s4 t4 s5 t5 s6 t6 s7 t7 s8 t8 s9 t9 : CState)
    (h1 : applyAct Act.newline s1 = some t1)
    (h2 : applyAct Act.thenW s2 = some t2)
    (h3 : applyAct Act.elseW s3 = some t3)
    (h4 : applyAct Act.fiW s4 = some t4)
    (h5 : applyAct Act.doW s5 = some t5)
    (h6 : applyAct Act.toW s6 = some t6)
    (h7 : applyAct Act.odW s7 = some t7)
    (h8 : applyAct Act.nextW s8 = some t8)
    (h9 : applyAct Act.endW s9 = some t9) :
    t1.dstk = [] ∧
    t2.dstk = s2.dstk.dropWhile (fun tr => decide (1 ≤ tr.p)) ∧
    t3.dstk = s3.dstk.dropWhile (fun tr => decide (1 ≤ tr.p)) ∧
    t4.dstk = s4.dstk.dropWhile (fun tr => decide (1 ≤ tr.p)) ∧
    t5.dstk = s5.dstk.dropWhile (fun tr => decide (1 ≤ tr.p)) ∧
    t6.dstk = ⟨Val.vnone, Rout.op OpName.LT, 50⟩ ::
      s6.dstk.dropWhile (fun tr => decide (1 ≤ tr.p)) ∧
    t7.dstk = s7.dstk.dropWhile (fun tr => decide (5 ≤ tr.p)) ∧
    t8.dstk = s8.dstk ∧
    t9.dstk = [] :=
  ⟨newline_dstk s1 t1 h1, then_dstk s2 t2 h2, else_dstk s3 t3 h3,
    fi_dstk s4 t4 h4, do_dstk s5 t5 h5, to_dstk s6 t6 h6,
    od_dstk s7 t7 h7, next_dstk s8 t8 h8, end_dstk s9 t9 h9⟩

/-- Witness for C4_statement_barriers: all nine statement-boundary words
applied to concrete states. -/
theorem C4_statement_barriers_witness :
    c4t1.dstk = [] ∧
    c4t2.dstk = c4s2.dstk.dropWhile (fun tr => decide (1 ≤ tr.p)) ∧
    c4t3.dstk = c4s3.dstk.dropWhile (fun tr => decide (1 ≤ tr.p)) ∧
    initState.dstk = c4s4.dstk.dropWhile (fun tr => decide (1 ≤ tr.p)) ∧
    c4t5.dstk = c4s5.dstk.dropWhile (fun tr => decide (1 ≤ tr.p)) ∧
    c4t6.dstk = ⟨Val.vnone, Rout.op OpName.LT, 50⟩ ::
      c4s6.dstk.dropWhile (fun tr => decide (1 ≤ tr.p)) ∧
    c4t7.dstk = c4s7.dstk.dropWhile (fun tr => decide (5 ≤ tr.p)) ∧
    c4t8.dstk = c4s8.dstk ∧
    initState.dstk = [] :=
  C4_statement_barriers c4s1 c4t1 c4s2 c4t2 c4s3 c4t3 c4s4 initState
    c4s5 c4t5 c4s6 c4t6 c4s7 c4t7 c4s8 c4t8 c4s9 initState
    rfl rfl rfl rfl rfl rfl rfl rfl rfl

/-- Claim C6: compiling the source "10 - 3 - 2" through the priority
shunt (numbers as PUSH literals at 255, "-" deferred at priority 100,
flushed left-associatively because equal priorities flush) and executing
the resulting code stream on an empty data stack leaves exactly the
single Number 5: SUB reconstructs its operands as (-b) + a. -/
theorem C6_left_assoc_sub :
    ((runActs c6acts initState).map
        fun s => (vmExec 8 (initVM s.cstk)).dstk.map numOf) = some [some 5] := by
  norm_num [runActs, applyAct, compileW, compile_words, flushA, emit, initState,
    c6acts, vmExec, vmStep, execOp, initVM, numOf]

/-- Claim C7 counterexample: compiling the one-word source "(" is an
error-free compilation (no error_on fires, and at the end both the
deferred and the parse stack are empty, so the final checks pass), yet
the resulting code stream holds the marker string ")" — not a primitive
routine — at even index 0: the end-of-file compile_words(0) pops the
priority-0 barrier triple of the unmatched "(" and emits it. -/
theorem C7_marker_in_code :
    Reach c7bad ∧ c7bad.dstk = [] ∧ c7bad.pstk = [] ∧
    allEvenOps c7bad.cstk = false :=
  ⟨Reach.step Act.eof (Reach.step (Act.openPar ")") Reach.init rfl) rfl,
    rfl, rfl, rfl⟩

/-- Claim C7 (amended): after any error-free compilation the code stream
has even length and every even index holds a routine slot (a primitive
routine or a parenthesis marker string left by an unmatched open
parenthesis) with its datum at the following odd index — data values
never occupy even positions; but an unmatched "(" or "[" can leave its
marker string at an even index, so "every even-index entry is a
primitive routine" fails (see the counterexample). -/
theorem C7_code_shape (s : CState) (h : Reach s) :
    s.cstk.length % 2 = 0 ∧ codeOkB s.cstk = true :=
  ⟨codeOkB_even _ (reach_good s h).1, (reach_good s h).1⟩

/-- Witness for C7_code_shape at the state reached by compiling the
single number 1. -/
theorem C7_code_shape_witness :
    c7wit.cstk.length % 2 = 0 ∧ codeOkB c7wit.cstk = true :=
  C7_code_shape c7wit
    (Reach.step (Act.word 255 OpName.PUSH (Val.num 1)) Reach.init rfl)

/-- Claim C8: IPUSH pops the index i (int-converted) and the user stack
s; when -len(s) <= int(i) < len(s) it pushes s[int(i)] with Python-style
tail indexing for negative int(i) (the fatal branch is unreachable), and
otherwise it dies with the fatal "Index out of range". -/
theorem C8_ipush_indexing (s : List Val) (q : ℚ) (rest : List Val)
    (s2 : List Val) (q2 : ℚ) (rest2 : List Val)
    (h1 : -(s.length : ℤ) ≤ pyInt q) (h2 : pyInt q < (s.length : ℤ))
    (h3 : pyInt q2 < -(s2.length : ℤ) ∨ (s2.length : ℤ) ≤ pyInt q2) :
    (pyNatIdx s q < s.length ∧
      IPUSH (Val.num q :: Val.ustack s :: rest)
        = some (s.getD (pyNatIdx s q) Val.vnone :: rest)) ∧
    IPUSH (Val.num q2 :: Val.ustack s2 :: rest2) = none := by
  constructor
  · have hcond : ¬ (pyInt q < -(s.length : ℤ) ∨ (s.length : ℤ) ≤ pyInt q) := by
      omega
    have hn : pyNatIdx s q < s.length := by
      unfold pyNatIdx
      by_cases h0 : 0 ≤ pyInt q
      · rw [if_pos h0]; omega
      · rw [if_neg h0]; omega
    refine ⟨hn, ?_⟩
    simp only [IPUSH, if_neg hcond, Option.some.injEq, List.cons.injEq]
    refine ⟨?_, trivial⟩
    unfold pyIndex
    by_cases h0 : 0 ≤ pyInt q
    · rw [if_pos h0]
      have hidx : pyNatIdx s q = (pyInt q).toNat := by
        unfold pyNatIdx
        rw [if_pos h0]
      rw [hidx]
    · rw [if_neg h0]
      have harith : s.length - (-(pyInt q)).toNat = pyNatIdx s q := by
        unfold pyNatIdx
        rw [if_neg h0]
        omega
      rw [harith]
  · simp only [IPUSH, if_pos h3]

/-- Witness for C8_ipush_indexing: index 0 on the one-element stack [7]
(in range, pushes 7), and index 0 on the empty stack (out of range,
fatal). -/
theorem C8_ipush_indexing_witness :
    (pyNatIdx [Val.num 7] 0 < 1 ∧
      IPUSH [Val.num 0, Val.ustack [Val.num 7]]
        = some ([Val.num 7].getD (pyNatIdx [Val.num 7] 0) Val.vnone :: [])) ∧
    IPUSH [Val.num 0, Val.ustack []] = none :=
  C8_ipush_indexing [Val.num 7] 0 [] [] 0 []
    (by norm_num [pyInt]) (by norm_num [pyInt]) (by norm_num [pyInt])

/-- Claim C9: the interpreter is deterministic across runs.  The VM
starts with the pseudo-random generator in the state fixed by
random.seed(0) for every program, and the step relation of the execute()
loop is a function of the state alone, so two runs of the same compiled
program that take the same number of steps reach the same state —
stacks, printed output and generator state included; in particular
successive RAND opcodes yield the same fixed sequence in every run. -/
theorem C9_deterministic (c : List Entry) (n : ℕ) (t u : VMState)
    (h1 : VRun n (initVM c) t) (h2 : VRun n (initVM c) u) :
    (initVM c).rng = 0 ∧ t = u := by
  refine ⟨rfl, ?_⟩
  have key : ∀ m (s a b : VMState), VRun m s a → VRun m s b → a = b := by
    intro m
    induction m with
    | zero =>
        intro s a b ha hb
        cases ha
        cases hb
        rfl
    | succ k ih =>
        intro s a b ha hb
        cases ha with
        | succ hpa hsa =>
            cases hb with
            | succ hpb hsb =>
                obtain rfl := ih s _ _ hpa hpb
                rw [hsa] at hsb
                exact Option.some.inj hsb
  exact key n _ t u h1 h2

/-- Witness for C9_deterministic: one step of the one-RAND program. -/
theorem C9_deterministic_witness :
    (initVM c9code).rng = 0 ∧ c9step = c9step :=
  C9_deterministic c9code 1 c9step c9step
    (VRun.succ (VRun.zero (initVM c9code)) rfl)
    (VRun.succ (VRun.zero (initVM c9code)) rfl)

/-- Claim C10: DEF is not atomic on error.  When the token after the
defined word is not "=", DEF reports the error but rolls nothing back:
the resulting state is identical to the success-path state (only the
error count differs, one error), the variable slot initialised to 0.0
stays allocated, the dictionary entry (priority 255, VPUSH of the slot
index) remains, and the VSTORE assignment is still deferred at
priority 50 on top of the barrier-1-flushed deferred stack. -/
theorem C10_def_not_atomic (w : String) (s : CState) :
    (DEF_run w false s).1 = (DEF_run w true s).1 ∧
    (DEF_run w false s).2 = 1 ∧
    (DEF_run w false s).1.vstk = s.vstk ++ [Val.num 0] ∧
    (DEF_run w false s).1.dict
      = s.dict ++ [⟨w, 255, Rout.op OpName.VPUSH, Val.addr s.vstk.length⟩] ∧
    (DEF_run w false s).1.dstk
      = ⟨Val.addr s.vstk.length, Rout.op OpName.VSTORE, 50⟩ ::
          s.dstk.dropWhile (fun tr => decide (1 ≤ tr.p)) := by
  refine ⟨rfl, rfl, ?_, ?_, ?_⟩
  · simp [DEF_run, insert_word, compileW, compile_words]
  · simp [DEF_run, insert_word, compileW, compile_words]
  · simp only [DEF_run, insert_word, compileW]
    rw [if_neg (by omega : ¬ (50 : ℕ) = 255)]
    simp only [cw_dstk]
    rw [dropWhile_flush_twice 1 50 (by omega)]
